import Mathlib

/-
  Shallow embedding of the claim-lifecycle core of the lost-and-found
  backend (models/Item.js, controllers/claimController.js,
  controllers/itemController.js, controllers/staffController.js,
  services/notificationService.js).

  Conventions of the embedding:
  * Document ids (Mongo ObjectIds) are `Nat`.
  * Timestamps (JS `Date` / epoch milliseconds) are `Int`; the current
    time `now` is passed explicitly where the source calls `new Date()`
    or `Date.now()`.
  * A controller returns a `CtrlResult`: the HTTP status code, the
    success flag of the JSON body, the item state written to the store
    (`none` when the handler returned before any save), and the list of
    notification records created.
  * `null`/`undefined` request fields are `Option`; JS truthiness of a
    string (`if (notes)`) is `s ≠ ""` on the `some` case.
-/

namespace LostFound

/-- Item.status enum from models/Item.js: 'active' | 'claimed' | 'returned' | 'expired'. -/
inductive ItemStatus
  | active
  | claimed
  | returned
  | expired
deriving DecidableEq, Repr

/-- Claim.status enum from models/Item.js: 'pending' | 'approved' | 'rejected'. -/
inductive ClaimStatus
  | pending
  | approved
  | rejected
deriving DecidableEq, Repr

/-- Item.type enum from models/Item.js: 'lost' | 'found'. -/
inductive ItemType
  | lost
  | found
deriving DecidableEq, Repr

/-- VerificationDocumentSchema from models/Item.js (url, name, type, size, publicId). -/
structure VerificationDocument where
  url : String
  name : String
  dtype : String
  size : Nat
  publicId : String
deriving DecidableEq, Repr

/-- ClaimSchema from models/Item.js, embedded in Item: subdocument id,
claimant reference, verification documents, notes, status. -/
structure Claim where
  id : Nat
  claimedBy : Nat
  verificationDocuments : List VerificationDocument
  notes : String
  status : ClaimStatus
deriving DecidableEq, Repr

/-- ItemSchema from models/Item.js, restricted to the fields the claim
lifecycle, police handover and staff dashboard read or write.  The
schema has no `returnNotes`, `returnDate` or `policeHandoverDate`
fields, so those assignments/queries in the controllers touch nothing
persisted and are not part of the state. -/
structure Item where
  status : ItemStatus
  itemType : ItemType
  location : String
  date : Int
  createdAt : Int
  expiryDate : Int
  reportedBy : Nat
  handedOverToPolice : Bool
  policeReportNumber : Option String
  claims : List Claim
deriving DecidableEq, Repr

/-- Notification record created through
NotificationService.createNotification (models/Notification.js):
recipient, type and title (the fields the claims under scrutiny
constrain). -/
structure Notif where
  recipient : Nat
  ntype : String
  title : String
deriving DecidableEq, Repr

/-- Result of one controller invocation: HTTP status code, the success
flag of the response body, the item state persisted by `item.save()`
(`none` when the handler returned before saving), and the notification
records created. -/
structure CtrlResult where
  code : Nat
  ok : Bool
  savedItem : Option Item
  notifs : List Notif
deriving DecidableEq, Repr

/-- ItemSchema.pre('save') middleware from models/Item.js: an `active`
item whose `expiryDate` is strictly before the current time is flipped
to `expired` on every save. -/
def preSave (now : Int) (it : Item) : Item :=
  if it.status = ItemStatus.active ∧ it.expiryDate < now then
    { it with status := ItemStatus.expired }
  else it

/-- ItemSchema.methods.getApprovedClaim: first claim with status 'approved'. -/
def getApprovedClaim (it : Item) : Option Claim :=
  it.claims.find? (fun c => decide (c.status = ClaimStatus.approved))

/-- ItemSchema.methods.canAcceptClaims: status is 'active' and the
expiry date is still in the future. -/
def canAcceptClaims (now : Int) (it : Item) : Bool :=
  decide (it.status = ItemStatus.active) && decide (now < it.expiryDate)

/-- Lookup `item.claims.id(claimId)`: first embedded claim with the given id. -/
def findClaim (cs : List Claim) (cid : Nat) : Option Claim :=
  cs.find? (fun c => decide (c.id = cid))

/-- Mutate the first claim with the given id (the subdocument returned
by `item.claims.id(claimId)`), leaving every other entry untouched. -/
def setClaim (cs : List Claim) (cid : Nat) (f : Claim → Claim) : List Claim :=
  match cs with
  | [] => []
  | c :: rest =>
      if c.id = cid then f c :: rest else c :: setClaim rest cid f

/-- Number of claims in the list whose status is 'approved'. -/
def countApproved (cs : List Claim) : Nat :=
  cs.countP (fun c => decide (c.status = ClaimStatus.approved))

/-- Character-list helper: does the second list occur at the head of the first. -/
def startsWithChars : List Char → List Char → Bool
  | _, [] => true
  | [], _ :: _ => false
  | a :: as, b :: bs => a == b && startsWithChars as bs

/-- Character-list helper: does the second list occur contiguously
anywhere inside the first. -/
def containsChars (hay needle : List Char) : Bool :=
  match hay with
  | [] => needle.isEmpty
  | _ :: t => startsWithChars hay needle || containsChars t needle

/-- JS `hay.includes(needle)`: contiguous substring test. -/
def strIncludes (hay needle : String) : Bool :=
  containsChars hay.toList needle.toList

/-- The Mongo filter `location: { $regex: branch, $options: 'i' }` used by
getStaffDashboardStats: for a branch string without regex
metacharacters this is a case-insensitive substring match of the
branch inside the item's location. -/
def locationMatches (loc branch : String) : Bool :=
  containsChars (loc.toList.map Char.toLower) (branch.toList.map Char.toLower)

/-- The system-generated note written on auto-rejected claims in
updateClaimStatus (controllers/claimController.js). -/
def autoRejectNote : String := "Automatically rejected - another claim was approved"

/-- A dispatch attempt against the notification infrastructure: when the
infrastructure is healthy it yields the records, otherwise it throws. -/
def attemptDispatch (infraOk : Bool) (ns : List Notif) : Except Unit (List Notif) :=
  if infraOk then Except.ok ns else Except.error ()

/-- The `try { ... } catch (notificationError) { console.error(...) }`
wrapper in the controllers: a throwing dispatch is swallowed, leaving
whatever the failed attempt produced (modelled as failing before any
record is created). -/
def caught (r : Except Unit (List Notif)) : List Notif :=
  match r with
  | Except.ok ns => ns
  | Except.error _ => []

/-- NotificationService.handleClaimSubmitted: one record to the item's
reporter, then (when any exist) one bulk record per active staff/admin
user (`getAdminStaffIds`, passed in here as `staffIds`). -/
def handleClaimSubmitted (it : Item) (staffIds : List Nat) : List Notif :=
  ⟨it.reportedBy, "claim_submitted", "New Claim Submitted"⟩ ::
    (if staffIds.length > 0 then
      staffIds.map (fun u => ⟨u, "claim_submitted", "New Claim Requires Review"⟩)
    else [])

/-- NotificationService.handleClaimApproved: one record to the claimant
and one to the item's reporter. -/
def handleClaimApproved (it : Item) (claimant : Nat) : List Notif :=
  [⟨claimant, "claim_approved", "Claim Approved!"⟩,
   ⟨it.reportedBy, "claim_approved", "Claim Approved for Your Item"⟩]

/-- NotificationService.handleClaimRejected: one record to the claimant. -/
def handleClaimRejected (claimant : Nat) : List Notif :=
  [⟨claimant, "claim_rejected", "Claim Not Approved"⟩]

/-- submitClaim from controllers/claimController.js.  `item0` is the
result of `Item.findById`; `userId` is `req.user.id`; `newClaimId` the
subdocument id Mongo assigns to the pushed claim; `staffIds` the active
staff/admin users the submitted-notification flow fans out to;
`notifyOk` whether the notification infrastructure is healthy.  The
handler checks only `item.status` and the duplicate-claimant guard
before pushing the claim; `item.save()` then runs the pre-save expiry
hook. -/
def submitClaim (notifyOk : Bool) (now : Int) (userId : Nat) (staffIds : List Nat)
    (newClaimId : Nat) (verificationDocuments : Option (List VerificationDocument))
    (notes : Option String) (item0 : Option Item) : CtrlResult :=
  match item0 with
  | none => ⟨404, false, none, []⟩
  | some it =>
    if it.status ≠ ItemStatus.active then
      ⟨400, false, none, []⟩
    else if (it.claims.find? (fun c => decide (c.claimedBy = userId))).isSome then
      ⟨400, false, none, []⟩
    else
      let processedDocuments := (verificationDocuments.getD []).map (fun d =>
        { url := d.url, name := d.name, dtype := d.dtype, size := d.size,
          publicId := d.publicId : VerificationDocument })
      let newClaim : Claim :=
        ⟨newClaimId, userId, processedDocuments, notes.getD "", ClaimStatus.pending⟩
      let saved := preSave now { it with claims := it.claims ++ [newClaim] }
      let notifs := caught (attemptDispatch notifyOk (handleClaimSubmitted saved staffIds))
      ⟨201, true, some saved, notifs⟩

/-- The request `status` string is checked against
`['pending', 'approved', 'rejected']` before anything else. -/
def parseClaimStatus : String → Option ClaimStatus
  | "pending" => some ClaimStatus.pending
  | "approved" => some ClaimStatus.approved
  | "rejected" => some ClaimStatus.rejected
  | _ => none

/-- `if (notes) { claim.notes = notes }`: a truthy (non-empty) request
notes string overwrites the claim's notes. -/
def applyReqNotes (reqNotes : Option String) (c : Claim) : Claim :=
  match reqNotes with
  | some s => if s = "" then c else { c with notes := s }
  | none => c

/-- The `item.claims.forEach` loop run on approval: every other claim
that is still 'pending' is force-rejected with the system note. -/
def autoRejectOthers (cid : Nat) (cs : List Claim) : List Claim :=
  cs.map (fun c =>
    if c.id ≠ cid ∧ c.status = ClaimStatus.pending then
      { c with status := ClaimStatus.rejected, notes := autoRejectNote }
    else c)

/-- The notification block of updateClaimStatus (run only when the
status actually changed): on 'approved', handleClaimApproved, plus a
direct reporter record when the reporter is not the claimant, plus one
record per claim now carrying the auto-rejection note; on 'rejected',
handleClaimRejected plus the reporter record; on 'pending', a single
status-updated record to the claimant. -/
def updateNotifs (saved : Item) (claimant reporter claimId : Nat)
    (originalStatus newStatus : ClaimStatus) : List Notif :=
  if originalStatus = newStatus then []
  else
    match newStatus with
    | ClaimStatus.approved =>
        handleClaimApproved saved claimant
          ++ (if reporter ≠ claimant then
                [⟨reporter, "claim_approved", "Claim Approved for Your Item"⟩]
              else [])
          ++ (saved.claims.filter (fun c =>
                decide (c.id ≠ claimId) && decide (c.status = ClaimStatus.rejected) &&
                decide (c.notes ≠ "") && strIncludes c.notes "Automatically rejected")).map
              (fun c => ⟨c.claimedBy, "claim_rejected", "Claim Not Approved"⟩)
    | ClaimStatus.rejected =>
        handleClaimRejected claimant
          ++ (if reporter ≠ claimant then
                [⟨reporter, "claim_rejected", "Claim Rejected for Your Item"⟩]
              else [])
    | ClaimStatus.pending =>
        if originalStatus ≠ ClaimStatus.pending then
          [⟨claimant, "claim_submitted", "Claim Status Updated"⟩]
        else []

/-- updateClaimStatus from controllers/claimController.js.  Validates
the status string, looks up item and claim, writes the new status (and
truthy notes) on the target claim; on 'approved' additionally sets the
item to 'claimed' and force-rejects every other pending claim; a single
`item.save()` (running the pre-save expiry hook) persists it all, after
which the notification block runs inside its own try/catch. -/
def updateClaimStatus (notifyOk : Bool) (now : Int) (_approver claimId : Nat)
    (reqStatus : String) (reqNotes : Option String) (item0 : Option Item) : CtrlResult :=
  match parseClaimStatus reqStatus with
  | none => ⟨400, false, none, []⟩
  | some newStatus =>
    match item0 with
    | none => ⟨404, false, none, []⟩
    | some it =>
      match findClaim it.claims claimId with
      | none => ⟨404, false, none, []⟩
      | some claim0 =>
        let originalStatus := claim0.status
        let claims1 := setClaim it.claims claimId
          (fun c => applyReqNotes reqNotes { c with status := newStatus })
        let stAndClaims :=
          if newStatus = ClaimStatus.approved then
            (ItemStatus.claimed, autoRejectOthers claimId claims1)
          else (it.status, claims1)
        let saved := preSave now { it with status := stAndClaims.1, claims := stAndClaims.2 }
        let notifs := caught (attemptDispatch notifyOk
          (updateNotifs saved claim0.claimedBy it.reportedBy claimId originalStatus newStatus))
        ⟨200, true, some saved, notifs⟩

/-- markItemReturned from controllers/claimController.js.  Rejects any
item that is not 'claimed'; when a claim id is supplied it must resolve
to an 'approved' claim (404 when absent, 400 when not approved); on
success the item is saved with status 'returned'.  The request's
`returnNotes` are assigned to fields absent from ItemSchema, so nothing
else of the document changes; the handler contains no notification
call. -/
def markItemReturned (now : Int) (claimId : Option Nat) (item0 : Option Item) : CtrlResult :=
  match item0 with
  | none => ⟨404, false, none, []⟩
  | some it =>
    if it.status ≠ ItemStatus.claimed then
      ⟨400, false, none, []⟩
    else
      match claimId with
      | some cid =>
        match findClaim it.claims cid with
        | none => ⟨404, false, none, []⟩
        | some c =>
          if c.status ≠ ClaimStatus.approved then
            ⟨400, false, none, []⟩
          else
            ⟨200, true, some (preSave now { it with status := ItemStatus.returned }), []⟩
      | none =>
        ⟨200, true, some (preSave now { it with status := ItemStatus.returned }), []⟩

/-- handoverToPolice from controllers/itemController.js.  Only staff or
admin callers pass (403 otherwise); the police report number must be
truthy and non-blank after trimming; the item must not already be
handed over and must be at least 30 days old (`Date.now() - item.date`);
on success the handover flag, the report number and status 'expired'
are saved. -/
def handoverToPolice (role : String) (policeReportNumber : Option String)
    (now : Int) (item0 : Option Item) : CtrlResult :=
  if ¬ (role = "staff" ∨ role = "admin") then
    ⟨403, false, none, []⟩
  else
    let prn := policeReportNumber.getD ""
    if prn.trim = "" then
      ⟨400, false, none, []⟩
    else
      match item0 with
      | none => ⟨404, false, none, []⟩
      | some it =>
        if it.handedOverToPolice then
          ⟨400, false, none, []⟩
        else if now - it.date < 30 * 24 * 60 * 60 * 1000 then
          ⟨400, false, none, []⟩
        else
          let saved := { it with handedOverToPolice := true, policeReportNumber := some prn, status := ItemStatus.expired }
          ⟨200, true, some (preSave now saved), []⟩

/-- The statistics block of getStaffDashboardStats
(controllers/staffController.js, the `Promise.all` of countDocuments
queries). -/
structure StaffStats where
  totalItems : Nat
  activeItems : Nat
  claimedItems : Nat
  returnedItems : Nat
  expiredItems : Nat
  recentItems : Nat
  pendingClaims : Nat
  lostItems : Nat
  foundItems : Nat
  handedOverToPolice : Nat
  policeHandoverRecentItems : Nat
  itemsAwaitingHandover : Nat
deriving DecidableEq, Repr

/-- getStaffDashboardStats from controllers/staffController.js: every
count spreads the same `locationFilter` (case-insensitive branch regex
on location) and adds its own condition.  `startDate` is `daysAgo` days
before now.  ItemSchema has no `policeHandoverDate` field, so the
`policeHandoverDate: { $gte: startDate }` query matches no stored
document. -/
def getStaffDashboardStats (now : Int) (daysAgo : Nat) (branch : String)
    (db : List Item) : StaffStats :=
  let startDate : Int := now - (daysAgo : Int) * 24 * 60 * 60 * 1000
  let m := fun (i : Item) => locationMatches i.location branch
  { totalItems := db.countP m
    activeItems := db.countP (fun i => m i && decide (i.status = ItemStatus.active))
    claimedItems := db.countP (fun i => m i && decide (i.status = ItemStatus.claimed))
    returnedItems := db.countP (fun i => m i && decide (i.status = ItemStatus.returned))
    expiredItems := db.countP (fun i => m i && decide (i.status = ItemStatus.expired))
    recentItems := db.countP (fun i => m i && decide (startDate ≤ i.createdAt))
    pendingClaims := db.countP (fun i =>
      m i && i.claims.any (fun c => decide (c.status = ClaimStatus.pending)))
    lostItems := db.countP (fun i => m i && decide (i.itemType = ItemType.lost))
    foundItems := db.countP (fun i => m i && decide (i.itemType = ItemType.found))
    handedOverToPolice := db.countP (fun i => m i && i.handedOverToPolice)
    policeHandoverRecentItems := db.countP (fun i => m i && (i.handedOverToPolice && false))
    itemsAwaitingHandover := db.countP (fun i =>
      m i && (decide (i.itemType = ItemType.found) &&
        (decide (i.status = ItemStatus.expired) && !i.handedOverToPolice))) }

/-- One request of the claim lifecycle, for reasoning about sequences of
operations on a single item document. -/
inductive Op where
  | submitOp (now : Int) (userId newClaimId : Nat) (notes : Option String)
  | updateOp (now : Int) (approver claimId : Nat) (reqStatus : String)
      (reqNotes : Option String)

/-- Run one request against the stored item: the store keeps whatever the
controller saved, and is untouched when the controller failed before
saving. -/
def applyOp (it : Item) (op : Op) : Item :=
  match op with
  | Op.submitOp now u cid notes =>
      ((submitClaim true now u [] cid none notes (some it)).savedItem).getD it
  | Op.updateOp now a cid s rn =>
      ((updateClaimStatus true now a cid s rn (some it)).savedItem).getD it

/-- Run a sequence of requests against the stored item. -/
def runOps (it : Item) (ops : List Op) : Item :=
  ops.foldl applyOp it

/-! ### Concrete fixtures used in the scenario theorems -/

/-- A freshly reported active item: reporter is user 10, expiry still in
the future at time 0, no claims yet. -/
def baseItem : Item :=
  { status := ItemStatus.active, itemType := ItemType.found, location := "Central Branch",
    date := 0, createdAt := 0, expiryDate := 100, reportedBy := 10,
    handedOverToPolice := false, policeReportNumber := none, claims := [] }

/-- A pending claim with the given subdocument id and claimant. -/
def pendingClaim (cid uid : Nat) : Claim :=
  ⟨cid, uid, [], "", ClaimStatus.pending⟩

/-- Item A of the approval scenario: active, unexpired, with exactly the
pending claims C1 (id 1, user 1) and C2 (id 2, user 2). -/
def itemTwoPending : Item :=
  { baseItem with claims := [pendingClaim 1 1, pendingClaim 2 2] }

/-- An item whose status is still 'active' although its expiry date is
already in the past at time 0 (no background job has flipped it). -/
def itemExpiredActive : Item :=
  { baseItem with expiryDate := -1 }

/-- A 'claimed' item carrying one approved claim (id 1, user 1). -/
def itemClaimedApproved : Item :=
  { baseItem with
    status := ItemStatus.claimed,
    claims := [⟨1, 1, [], "", ClaimStatus.approved⟩] }

/-- An item that is still 'active' but past expiry, carrying the two
pending claims of the approval scenario. -/
def itemExpiredTwoPending : Item :=
  { itemExpiredActive with claims := [pendingClaim 1 1, pendingClaim 2 2] }

end LostFound

namespace LostFound

/-! ### C1: at most one approved claim per item -/

/-- C1 counterexample: starting from a fresh active item, the request
sequence submit(U1), submit(U2), approve(claim 1), approve(claim 2) is
accepted by the controllers and leaves TWO claims with status
'approved' on the item: updateClaimStatus force-rejects only claims
that are still 'pending', so approving a second claim leaves the
already-approved first one approved. -/
theorem two_approved_claims_reachable :
    countApproved (runOps baseItem
      [Op.submitOp 0 1 1 none, Op.submitOp 0 2 2 none,
       Op.updateOp 0 99 1 "approved" none,
       Op.updateOp 0 99 2 "approved" none]).claims = 2 := by decide

/-! ### C3: submitClaim and the expired-but-active item -/

/-- C3 (code bug evaluation): an item whose status is still 'active' but
whose expiry date has passed is rejected by the model's own
canAcceptClaims gate, yet submitClaim never consults it: the request
succeeds with 201 and appends a pending claim; the pre-save hook then
flips the item to 'expired' while keeping the new claim. -/
theorem submitClaim_accepts_expired_active_item :
    canAcceptClaims 0 itemExpiredActive = false
    ∧ (submitClaim true 0 5 [] 7 none none (some itemExpiredActive)).code = 201
    ∧ (submitClaim true 0 5 [] 7 none none (some itemExpiredActive)).savedItem =
        some { itemExpiredActive with
               status := ItemStatus.expired,
               claims := [pendingClaim 7 5] } := by decide

/-! ### C4: the two-claim approval scenario -/

/-- C4 counterexample: in the two-pending-claims scenario the approval
of claim 1 creates FOUR notification records, not three: the reporter
is notified twice (once inside handleClaimApproved and once by the
controller's direct createNotification call). -/
theorem approve_scenario_four_notifs_not_three :
    (updateClaimStatus true 0 99 1 "approved" none (some itemTwoPending)).notifs.length = 4
    ∧ (updateClaimStatus true 0 99 1 "approved" none (some itemTwoPending)).notifs.length ≠ 3 := by
  decide

/-- C4 amended: approving C1 in the scenario yields item status
'claimed', C1 approved, C2 auto-rejected, and exactly four
notifications: claim_approved to U1, claim_approved to the reporter
twice, and claim_rejected to U2. -/
theorem approve_scenario_exact_outcome :
    (updateClaimStatus true 0 99 1 "approved" none (some itemTwoPending)).savedItem =
      some { baseItem with
             status := ItemStatus.claimed,
             claims := [⟨1, 1, [], "", ClaimStatus.approved⟩,
                        ⟨2, 2, [], autoRejectNote, ClaimStatus.rejected⟩] }
    ∧ (updateClaimStatus true 0 99 1 "approved" none (some itemTwoPending)).notifs =
      [⟨1, "claim_approved", "Claim Approved!"⟩,
       ⟨10, "claim_approved", "Claim Approved for Your Item"⟩,
       ⟨10, "claim_approved", "Claim Approved for Your Item"⟩,
       ⟨2, "claim_rejected", "Claim Not Approved"⟩] := by decide

/-! ### C5: markItemReturned and the reporter notification -/

/-- C5 (code bug evaluation): a successful markItemReturned saves the
item as 'returned' but creates no notification record at all — the
controller contains no dispatcher call, and
NotificationService.handleItemReturned has no caller. -/
theorem markItemReturned_creates_no_notification :
    (markItemReturned 0 (some 1) (some itemClaimedApproved)).code = 200
    ∧ (markItemReturned 0 (some 1) (some itemClaimedApproved)).savedItem =
        some { itemClaimedApproved with status := ItemStatus.returned }
    ∧ (markItemReturned 0 (some 1) (some itemClaimedApproved)).notifs = [] := by decide

/-! ### C9: frame of a non-approving status update -/

/-- C9 counterexample: rejecting claim 1 on an item that is still
'active' with its expiry date in the past changes the item's status:
the save triggers the pre-save hook, which flips the item from 'active'
to 'expired' during the very update the claim says leaves the status
unchanged. -/
theorem reject_flips_active_expired_status :
    itemExpiredTwoPending.status = ItemStatus.active
    ∧ ((updateClaimStatus true 0 99 1 "rejected" none
          (some itemExpiredTwoPending)).savedItem).map Item.status =
        some ItemStatus.expired := by decide

end LostFound

namespace LostFound

/-! ### Shared list lemmas -/

/-- Counting with a conjunction of the filter's own predicate is
unchanged by first filtering with it. -/
theorem countP_and_filter {α : Type} (m p : α → Bool) (l : List α) :
    List.countP (fun a => m a && p a) (l.filter m) =
      List.countP (fun a => m a && p a) l := by
  induction l with
  | nil => rfl
  | cons a t ih =>
    by_cases h : m a
    · simp [List.filter_cons, h, List.countP_cons, ih]
    · simp [List.filter_cons, h, List.countP_cons, ih]

/-- Counting with the filter's own predicate is unchanged by the filter. -/
theorem countP_self_filter {α : Type} (m : α → Bool) (l : List α) :
    List.countP m (l.filter m) = List.countP m l := by
  induction l with
  | nil => rfl
  | cons a t ih =>
    by_cases h : m a
    · simp [List.filter_cons, h, List.countP_cons, ih]
    · simp [List.filter_cons, h, List.countP_cons, ih]

end LostFound

namespace LostFound

/-! ### C8: branch-scoped staff dashboard statistics -/

/-- C8: every count of the staff dashboard spreads the same
case-insensitive branch filter on the item location, so the statistics
over the whole store equal the statistics over just the matching items,
the total is exactly the number of matching items, and an item whose
location is "North Branch" is excluded for branch "Central". -/
theorem staffStats_branch_scoped (now : Int) (daysAgo : Nat) (branch : String)
    (db : List Item) :
    getStaffDashboardStats now daysAgo branch db =
      getStaffDashboardStats now daysAgo branch
        (db.filter (fun i => locationMatches i.location branch))
    ∧ (getStaffDashboardStats now daysAgo branch db).totalItems =
        (db.filter (fun i => locationMatches i.location branch)).length
    ∧ locationMatches "North Branch" "Central" = false := by
  refine ⟨?_, ?_, by decide⟩
  · simp only [getStaffDashboardStats, StaffStats.mk.injEq]
    exact ⟨(countP_self_filter _ _).symm,
      (countP_and_filter _ _ _).symm, (countP_and_filter _ _ _).symm,
      (countP_and_filter _ _ _).symm, (countP_and_filter _ _ _).symm,
      (countP_and_filter _ _ _).symm, (countP_and_filter _ _ _).symm,
      (countP_and_filter _ _ _).symm, (countP_and_filter _ _ _).symm,
      (countP_and_filter _ _ _).symm, (countP_and_filter _ _ _).symm,
      (countP_and_filter _ _ _).symm⟩
  · simp only [getStaffDashboardStats]
    exact List.countP_eq_length_filter _ _

end LostFound

namespace LostFound

/-! ### Lemmas about the claim-array mutations -/

/-- applyReqNotes never changes the claim id. -/
lemma applyReqNotes_id (rn : Option String) (c : Claim) : (applyReqNotes rn c).id = c.id := by
  cases rn with
  | none => rfl
  | some s =>
    simp only [applyReqNotes]
    split <;> rfl

/-- applyReqNotes never changes the claim status. -/
lemma applyReqNotes_status (rn : Option String) (c : Claim) :
    (applyReqNotes rn c).status = c.status := by
  cases rn with
  | none => rfl
  | some s =>
    simp only [applyReqNotes]
    split <;> rfl

/-- The pre-save hook only touches the item status, never the claims. -/
lemma preSave_claims (now : Int) (it : Item) : (preSave now it).claims = it.claims := by
  unfold preSave
  split <;> rfl

/-- A claim found by id has that id. -/
lemma findClaim_id (cs : List Claim) (cid : Nat) (c0 : Claim)
    (h : findClaim cs cid = some c0) : c0.id = cid := by
  have := List.find?_some h
  simpa using this

/-- A claim with a different id survives setClaim untouched. -/
lemma mem_setClaim_of_ne (cs : List Claim) (cid : Nat) (f : Claim → Claim) (c : Claim)
    (hc : c ∈ cs) (hne : c.id ≠ cid) : c ∈ setClaim cs cid f := by
  induction cs with
  | nil => cases hc
  | cons a t ih =>
    by_cases ha : a.id = cid
    · simp only [setClaim, if_pos ha, List.mem_cons]
      rcases List.mem_cons.mp hc with rfl | hmem
      · exact absurd ha hne
      · exact Or.inr hmem
    · simp only [setClaim, if_neg ha, List.mem_cons]
      rcases List.mem_cons.mp hc with rfl | hmem
      · exact Or.inl rfl
      · exact Or.inr (ih hmem)

/-- The image of the claim found by id is a member of the setClaim result. -/
lemma setClaim_target_mem (cs : List Claim) (cid : Nat) (f : Claim → Claim) (c0 : Claim)
    (h : findClaim cs cid = some c0) : f c0 ∈ setClaim cs cid f := by
  induction cs with
  | nil => simp [findClaim] at h
  | cons a t ih =>
    by_cases ha : a.id = cid
    · have ha2 : a = c0 := by
        have h' := h
        simp [findClaim, List.find?, ha] at h'
        exact h'
      subst ha2
      simp [setClaim, if_pos ha]
    · have h2 : findClaim t cid = some c0 := by
        have h' := h
        simp [findClaim, List.find?, ha] at h'
        exact h'
      simp only [setClaim, if_neg ha, List.mem_cons]
      exact Or.inr (ih h2)

/-- Every other pending claim appears force-rejected with the system
note in the autoRejectOthers result. -/
lemma autoReject_mem_rejected (cid : Nat) (cs : List Claim) (c : Claim)
    (hc : c ∈ cs) (hne : c.id ≠ cid) (hp : c.status = ClaimStatus.pending) :
    { c with status := ClaimStatus.rejected, notes := autoRejectNote } ∈
      autoRejectOthers cid cs := by
  unfold autoRejectOthers
  refine List.mem_map.mpr ⟨c, hc, ?_⟩
  simp [hne, hp]

/-- A claim carrying the target id passes through autoRejectOthers unchanged. -/
lemma autoReject_keep_of_id (cid : Nat) (cs : List Claim) (c : Claim)
    (hc : c ∈ cs) (hid : c.id = cid) : c ∈ autoRejectOthers cid cs := by
  unfold autoRejectOthers
  refine List.mem_map.mpr ⟨c, hc, ?_⟩
  simp [hid]

/-- After autoRejectOthers no claim other than the target is pending. -/
lemma autoReject_no_pending (cid : Nat) (cs : List Claim) (d : Claim)
    (hd : d ∈ autoRejectOthers cid cs) (hne : d.id ≠ cid) :
    d.status ≠ ClaimStatus.pending := by
  unfold autoRejectOthers at hd
  rcases List.mem_map.mp hd with ⟨e, he, heq⟩
  by_cases hcond : e.id ≠ cid ∧ e.status = ClaimStatus.pending
  · rw [if_pos hcond] at heq
    rw [← heq]
    intro hcontra
    cases hcontra
  · rw [if_neg hcond] at heq
    subst heq
    push_neg at hcond
    exact hcond hne

/-- Pointwise-identity map when no listed claim carries the target id. -/
lemma map_ite_id (cid : Nat) (f : Claim → Claim) (t : List Claim)
    (h : ∀ c ∈ t, c.id ≠ cid) :
    t.map (fun c => if c.id = cid then f c else c) = t := by
  induction t with
  | nil => rfl
  | cons a r ih =>
    simp [h a (List.mem_cons_self a r), ih (fun c hc => h c (List.mem_cons_of_mem a hc))]

/-- Under unique claim ids, mutating the first id-match coincides with
mutating every id-match. -/
lemma setClaim_eq_map (cid : Nat) (f : Claim → Claim) (cs : List Claim)
    (huniq : (cs.map Claim.id).Nodup) :
    setClaim cs cid f = cs.map (fun c => if c.id = cid then f c else c) := by
  induction cs with
  | nil => rfl
  | cons a t ih =>
    rw [List.map_cons, List.nodup_cons] at huniq
    obtain ⟨hnotin, hnd⟩ := huniq
    by_cases ha : a.id = cid
    · have hall : ∀ c ∈ t, c.id ≠ cid := by
        intro c hc heq
        exact hnotin (List.mem_map.mpr ⟨c, hc, by rw [heq]; exact ha.symm⟩)
      simp [setClaim, ha, map_ite_id cid f t hall]
    · simp [setClaim, ha, ih hnd]

/-- Under unique claim ids at most one claim carries a given id. -/
lemma countP_id_le_one (cid : Nat) (cs : List Claim)
    (huniq : (cs.map Claim.id).Nodup) :
    cs.countP (fun c => decide (c.id = cid)) ≤ 1 := by
  induction cs with
  | nil => simp
  | cons a t ih =>
    rw [List.map_cons, List.nodup_cons] at huniq
    obtain ⟨hnotin, hnd⟩ := huniq
    by_cases ha : a.id = cid
    · have hzero : t.countP (fun c => decide (c.id = cid)) = 0 := by
        rw [List.countP_eq_zero]
        intro c hc
        simp only [decide_eq_true_eq]
        intro heq
        exact hnotin (List.mem_map.mpr ⟨c, hc, by rw [heq]; exact ha.symm⟩)
      simp [List.countP_cons, ha, hzero]
    · simp only [List.countP_cons, ha, decide_eq_true_eq]
      simpa [ha] using ih hnd

/-- Core of the single-winner argument: approving the claim with the
target id on an array whose only possibly-approved claim is the target
leaves at most one approved claim. -/
lemma countApproved_after_approve_le_one (cid : Nat) (rn : Option String) (cs : List Claim)
    (huniq : (cs.map Claim.id).Nodup)
    (hprev : ∀ c ∈ cs, c.status = ClaimStatus.approved → c.id = cid) :
    countApproved (autoRejectOthers cid (setClaim cs cid
      (fun c => applyReqNotes rn { c with status := ClaimStatus.approved }))) ≤ 1 := by
  rw [setClaim_eq_map cid _ cs huniq]
  unfold autoRejectOthers countApproved
  rw [List.map_map, List.countP_map]
  refine le_trans (le_of_eq ?_) (countP_id_le_one cid cs huniq)
  apply List.countP_congr
  intro c hc
  by_cases hid : c.id = cid
  · simp [hid, applyReqNotes_id, applyReqNotes_status]
  · have hna : c.status ≠ ClaimStatus.approved := fun h => hid (hprev c hc h)
    by_cases hp : c.status = ClaimStatus.pending
    · simp [hid, hp]
    · simp [hid, hp, hna]

end LostFound

namespace LostFound

/-- C1 (amended): when the claim ids on the item are distinct and no
claim other than the target is already 'approved', an updateClaimStatus
request whose status parses to 'approved' leaves at most one approved
claim on the saved item — the approval force-rejects the remaining
pending claims.  The unrestricted invariant of the claim is refuted by
`two_approved_claims_reachable`: the controller never checks for an
existing approved claim, so approving a second claim keeps both
approved. -/
theorem approved_unique_when_no_prior_approved (now : Int) (appr claimId : Nat)
    (s : String) (reqNotes : Option String) (it : Item) (saved : Item)
    (hparse : parseClaimStatus s = some ClaimStatus.approved)
    (huniq : (it.claims.map Claim.id).Nodup)
    (hprev : ∀ c ∈ it.claims, c.status = ClaimStatus.approved → c.id = claimId)
    (hs : (updateClaimStatus true now appr claimId s reqNotes (some it)).savedItem
        = some saved) :
    countApproved saved.claims ≤ 1 := by
  cases hf : findClaim it.claims claimId with
  | none =>
    simp only [updateClaimStatus, hparse, hf] at hs
    cases hs
  | some c0 =>
    simp only [updateClaimStatus, hparse, hf] at hs
    have hsaved := (Option.some.inj hs).symm
    rw [hsaved, preSave_claims]
    exact countApproved_after_approve_le_one claimId reqNotes it.claims huniq hprev

/-- Witness for C1 (amended) at the two-pending-claims fixture. -/
theorem approved_unique_when_no_prior_approved_witness :
    countApproved ({ baseItem with
      status := ItemStatus.claimed,
      claims := [⟨1, 1, [], "", ClaimStatus.approved⟩,
                 ⟨2, 2, [], autoRejectNote, ClaimStatus.rejected⟩] } : Item).claims ≤ 1 :=
  approved_unique_when_no_prior_approved 0 99 1 "approved" none itemTwoPending
    { baseItem with
      status := ItemStatus.claimed,
      claims := [⟨1, 1, [], "", ClaimStatus.approved⟩,
                 ⟨2, 2, [], autoRejectNote, ClaimStatus.rejected⟩] }
    rfl (by decide) (by decide) (by decide)

/-- C2: an updateClaimStatus request whose status parses to 'approved',
targeting an existing claim, saves in one update an item whose status is
'claimed', in which every other previously-pending claim appears
force-rejected with the system-generated note, no claim other than the
target remains pending, and a claim with the target id is approved. -/
theorem approve_rejects_other_pending (now : Int) (appr claimId : Nat) (s : String)
    (reqNotes : Option String) (it : Item) (c0 : Claim)
    (hparse : parseClaimStatus s = some ClaimStatus.approved)
    (hfound : findClaim it.claims claimId = some c0) :
    ∃ saved,
      (updateClaimStatus true now appr claimId s reqNotes (some it)).savedItem = some saved
      ∧ saved.status = ItemStatus.claimed
      ∧ autoRejectNote = "Automatically rejected - another claim was approved"
      ∧ (∀ c ∈ it.claims, c.id ≠ claimId → c.status = ClaimStatus.pending →
          { c with status := ClaimStatus.rejected, notes := autoRejectNote } ∈ saved.claims)
      ∧ (∀ d ∈ saved.claims, d.id ≠ claimId → d.status ≠ ClaimStatus.pending)
      ∧ (∃ d ∈ saved.claims, d.id = claimId ∧ d.status = ClaimStatus.approved) := by
  have hrun : (updateClaimStatus true now appr claimId s reqNotes (some it)).savedItem =
      some (preSave now { it with
        status := ItemStatus.claimed,
        claims := autoRejectOthers claimId (setClaim it.claims claimId
          (fun c => applyReqNotes reqNotes { c with status := ClaimStatus.approved })) }) := by
    simp only [updateClaimStatus, hparse, hfound]
    rfl
  refine ⟨_, hrun, ?_, rfl, ?_, ?_, ?_⟩
  · simp [preSave]
  · intro c hc hne hp
    rw [preSave_claims]
    exact autoReject_mem_rejected claimId _ _
      (mem_setClaim_of_ne it.claims claimId _ c hc hne) hne hp
  · intro d hd hne
    rw [preSave_claims] at hd
    exact autoReject_no_pending claimId _ d hd hne
  · rw [preSave_claims]
    refine ⟨applyReqNotes reqNotes { c0 with status := ClaimStatus.approved }, ?_, ?_, ?_⟩
    · apply autoReject_keep_of_id
      · exact setClaim_target_mem it.claims claimId _ c0 hfound
      · rw [applyReqNotes_id]
        exact findClaim_id it.claims claimId c0 hfound
    · rw [applyReqNotes_id]
      exact findClaim_id it.claims claimId c0 hfound
    · rw [applyReqNotes_status]

/-- Witness for C2 at the two-pending-claims fixture. -/
theorem approve_rejects_other_pending_witness :
    ∃ saved,
      (updateClaimStatus true 0 99 1 "approved" none (some itemTwoPending)).savedItem
        = some saved
      ∧ saved.status = ItemStatus.claimed
      ∧ autoRejectNote = "Automatically rejected - another claim was approved"
      ∧ (∀ c ∈ itemTwoPending.claims, c.id ≠ 1 → c.status = ClaimStatus.pending →
          { c with status := ClaimStatus.rejected, notes := autoRejectNote } ∈ saved.claims)
      ∧ (∀ d ∈ saved.claims, d.id ≠ 1 → d.status ≠ ClaimStatus.pending)
      ∧ (∃ d ∈ saved.claims, d.id = 1 ∧ d.status = ClaimStatus.approved) :=
  approve_rejects_other_pending 0 99 1 "approved" none itemTwoPending
    (pendingClaim 1 1) rfl rfl

end LostFound

namespace LostFound

/-- C6: markItemReturned succeeds (200) exactly when the item's status is
'claimed' and any supplied claim id resolves to an approved claim; every
failure (400 for a non-claimed item or a non-approved claim, 404 for a
missing claim) leaves the store untouched, and success saves the item
with status 'returned'. -/
theorem markItemReturned_spec (now : Int) (claimId : Option Nat) (it : Item) :
    ((markItemReturned now claimId (some it)).code = 200 ↔
      it.status = ItemStatus.claimed ∧
        ∀ cid, claimId = some cid →
          ∃ c, findClaim it.claims cid = some c ∧ c.status = ClaimStatus.approved)
    ∧ ((markItemReturned now claimId (some it)).code ≠ 200 →
        (markItemReturned now claimId (some it)).savedItem = none)
    ∧ ((markItemReturned now claimId (some it)).code = 200 →
        (markItemReturned now claimId (some it)).savedItem =
          some { it with status := ItemStatus.returned })
    ∧ (it.status ≠ ItemStatus.claimed → (markItemReturned now claimId (some it)).code = 400)
    ∧ (∀ cid, claimId = some cid → it.status = ItemStatus.claimed →
        findClaim it.claims cid = none → (markItemReturned now claimId (some it)).code = 404)
    ∧ (∀ cid c, claimId = some cid → it.status = ItemStatus.claimed →
        findClaim it.claims cid = some c → c.status ≠ ClaimStatus.approved →
        (markItemReturned now claimId (some it)).code = 400) := by
  by_cases hst : it.status = ItemStatus.claimed
  · cases claimId with
    | none => simp [markItemReturned, hst, preSave]
    | some cid =>
      cases hf : findClaim it.claims cid with
      | none =>
        simp [markItemReturned, hst, hf]
        intro cid1 c h1 h2
        subst h1
        rw [hf] at h2
        exact Option.noConfusion h2
      | some c =>
        by_cases hc : c.status = ClaimStatus.approved
        · simp [markItemReturned, hst, hf, hc, preSave]
          intro cid1 c1 h1 h2
          subst h1
          rw [hf] at h2
          exact Option.some.inj h2 ▸ hc
        · simp [markItemReturned, hst, hf, hc]
  · simp [markItemReturned, hst]

/-- Witness for C6 at the claimed-with-approved-claim fixture. -/
theorem markItemReturned_spec_witness :
    ((markItemReturned 0 (some 1) (some itemClaimedApproved)).code = 200 ↔
      itemClaimedApproved.status = ItemStatus.claimed ∧
        ∀ cid, (some 1 : Option Nat) = some cid →
          ∃ c, findClaim itemClaimedApproved.claims cid = some c ∧
            c.status = ClaimStatus.approved)
    ∧ ((markItemReturned 0 (some 1) (some itemClaimedApproved)).code ≠ 200 →
        (markItemReturned 0 (some 1) (some itemClaimedApproved)).savedItem = none)
    ∧ ((markItemReturned 0 (some 1) (some itemClaimedApproved)).code = 200 →
        (markItemReturned 0 (some 1) (some itemClaimedApproved)).savedItem =
          some { itemClaimedApproved with status := ItemStatus.returned })
    ∧ (itemClaimedApproved.status ≠ ItemStatus.claimed →
        (markItemReturned 0 (some 1) (some itemClaimedApproved)).code = 400)
    ∧ (∀ cid, (some 1 : Option Nat) = some cid →
        itemClaimedApproved.status = ItemStatus.claimed →
        findClaim itemClaimedApproved.claims cid = none →
        (markItemReturned 0 (some 1) (some itemClaimedApproved)).code = 404)
    ∧ (∀ cid c, (some 1 : Option Nat) = some cid →
        itemClaimedApproved.status = ItemStatus.claimed →
        findClaim itemClaimedApproved.claims cid = some c →
        c.status ≠ ClaimStatus.approved →
        (markItemReturned 0 (some 1) (some itemClaimedApproved)).code = 400) :=
  markItemReturned_spec 0 (some 1) itemClaimedApproved

end LostFound

namespace LostFound

/-- C7: a notification-infrastructure failure (the dispatch throwing
after the item mutation was saved) changes neither the HTTP status nor
the success flag nor the saved item of submitClaim or updateClaimStatus
— the try/catch swallows it, so only the notification records are
lost. -/
theorem notification_failure_isolated (now : Int) (userId : Nat) (staffIds : List Nat)
    (newClaimId : Nat) (vd : Option (List VerificationDocument)) (notes : Option String)
    (item0 : Option Item) (appr claimId : Nat) (reqStatus : String)
    (reqNotes : Option String) (item1 : Option Item) :
    ((submitClaim false now userId staffIds newClaimId vd notes item0).code
        = (submitClaim true now userId staffIds newClaimId vd notes item0).code
      ∧ (submitClaim false now userId staffIds newClaimId vd notes item0).ok
        = (submitClaim true now userId staffIds newClaimId vd notes item0).ok
      ∧ (submitClaim false now userId staffIds newClaimId vd notes item0).savedItem
        = (submitClaim true now userId staffIds newClaimId vd notes item0).savedItem)
    ∧ ((updateClaimStatus false now appr claimId reqStatus reqNotes item1).code
        = (updateClaimStatus true now appr claimId reqStatus reqNotes item1).code
      ∧ (updateClaimStatus false now appr claimId reqStatus reqNotes item1).ok
        = (updateClaimStatus true now appr claimId reqStatus reqNotes item1).ok
      ∧ (updateClaimStatus false now appr claimId reqStatus reqNotes item1).savedItem
        = (updateClaimStatus true now appr claimId reqStatus reqNotes item1).savedItem) := by
  constructor
  · cases item0 with
    | none => simp [submitClaim]
    | some it =>
      by_cases h1 : it.status = ItemStatus.active
      · by_cases h2 : (it.claims.find? (fun c => decide (c.claimedBy = userId))).isSome
        · simp [submitClaim, h1, h2]
        · simp [submitClaim, h1, h2]
      · simp [submitClaim, h1]
  · cases hp : parseClaimStatus reqStatus with
    | none => simp [updateClaimStatus, hp]
    | some newStatus =>
      cases item1 with
      | none => simp [updateClaimStatus, hp]
      | some it =>
        cases hf : findClaim it.claims claimId with
        | none => simp [updateClaimStatus, hp, hf]
        | some c0 => simp [updateClaimStatus, hp, hf]

/-- C9 (amended): an updateClaimStatus request whose status parses to
'rejected' or 'pending' saves, on an item with distinct claim ids, the
item with every claim other than the target untouched and only the
target's status (and, when truthy notes were supplied, its notes)
changed; the item's own status then passes through the pre-save expiry
hook, which flips an active item past its expiry date to 'expired' —
the only deviation from the claim, refuted on that edge case by
`reject_flips_active_expired_status`. -/
theorem update_nonapproved_frame (now : Int) (appr claimId : Nat) (s : String)
    (reqNotes : Option String) (it : Item) (newStatus : ClaimStatus)
    (hparse : parseClaimStatus s = some newStatus)
    (hnap : newStatus ≠ ClaimStatus.approved)
    (hfound : (findClaim it.claims claimId).isSome)
    (huniq : (it.claims.map Claim.id).Nodup) :
    (updateClaimStatus true now appr claimId s reqNotes (some it)).savedItem =
      some (preSave now { it with claims := it.claims.map (fun c =>
        if c.id = claimId then applyReqNotes reqNotes { c with status := newStatus }
        else c) }) := by
  obtain ⟨c0, hc0⟩ := Option.isSome_iff_exists.mp hfound
  simp only [updateClaimStatus, hparse, hc0]
  simp only [hnap, if_neg, ite_false]
  rw [setClaim_eq_map claimId _ it.claims huniq]

/-- Witness for C9 (amended): rejecting claim 1 on the two-pending-claims fixture. -/
theorem update_nonapproved_frame_witness :
    (updateClaimStatus true 0 99 1 "rejected" none (some itemTwoPending)).savedItem =
      some (preSave 0 { itemTwoPending with claims := itemTwoPending.claims.map (fun c =>
        if c.id = 1 then applyReqNotes none { c with status := ClaimStatus.rejected }
        else c) }) :=
  update_nonapproved_frame 0 99 1 "rejected" none itemTwoPending ClaimStatus.rejected
    rfl (by decide) (by decide) (by decide)

/-- C10: handoverToPolice succeeds (200) exactly when the caller's role
is staff or admin, the police report number is non-blank after trimming,
the item is not already handed over, and the item's reported date is at
least 30 days (in milliseconds) in the past; success saves the handover
flag, the report number and status 'expired'; any failure leaves the
store untouched, with 403 exactly for a disallowed role and 400 for the
other violations. -/
theorem handoverToPolice_spec (role : String) (prn : Option String) (now : Int) (it : Item) :
    ((handoverToPolice role prn now (some it)).code = 200 ↔
      ((role = "staff" ∨ role = "admin") ∧ (prn.getD "").trim ≠ "" ∧
        it.handedOverToPolice = false ∧ 30 * 24 * 60 * 60 * 1000 ≤ now - it.date))
    ∧ ((handoverToPolice role prn now (some it)).code = 200 →
        (handoverToPolice role prn now (some it)).savedItem =
          some { it with
                 handedOverToPolice := true,
                 policeReportNumber := some (prn.getD ""),
                 status := ItemStatus.expired })
    ∧ ((handoverToPolice role prn now (some it)).code ≠ 200 →
        (handoverToPolice role prn now (some it)).savedItem = none)
    ∧ (¬(role = "staff" ∨ role = "admin") →
        (handoverToPolice role prn now (some it)).code = 403)
    ∧ ((role = "staff" ∨ role = "admin") →
        (handoverToPolice role prn now (some it)).code ≠ 200 →
        (handoverToPolice role prn now (some it)).code = 400) := by
  by_cases hrole : role = "staff" ∨ role = "admin"
  · by_cases hprn : (prn.getD "").trim = ""
    · simp [handoverToPolice, hrole, hprn]
    · by_cases hpol : it.handedOverToPolice
      · simp [handoverToPolice, hrole, hprn, hpol]
      · by_cases hage : now - it.date < 2592000000
        · simp [handoverToPolice, hrole, hprn, hpol, hage]
        · simp [handoverToPolice, hrole, hprn, hpol, hage, preSave]
          omega
  · simp [handoverToPolice, hrole]

/-- Witness for C10: a staff handover of a 30-day-old item. -/
theorem handoverToPolice_spec_witness :
    ((handoverToPolice "staff" (some "RPT-1") 2592000000 (some baseItem)).code = 200 ↔
      (("staff" = "staff" ∨ "staff" = "admin") ∧
        ((some "RPT-1" : Option String).getD "").trim ≠ "" ∧
        baseItem.handedOverToPolice = false ∧
        30 * 24 * 60 * 60 * 1000 ≤ 2592000000 - baseItem.date))
    ∧ ((handoverToPolice "staff" (some "RPT-1") 2592000000 (some baseItem)).code = 200 →
        (handoverToPolice "staff" (some "RPT-1") 2592000000 (some baseItem)).savedItem =
          some { baseItem with
                 handedOverToPolice := true,
                 policeReportNumber := some ((some "RPT-1" : Option String).getD ""),
                 status := ItemStatus.expired })
    ∧ ((handoverToPolice "staff" (some "RPT-1") 2592000000 (some baseItem)).code ≠ 200 →
        (handoverToPolice "staff" (some "RPT-1") 2592000000 (some baseItem)).savedItem = none)
    ∧ (¬("staff" = "staff" ∨ "staff" = "admin") →
        (handoverToPolice "staff" (some "RPT-1") 2592000000 (some baseItem)).code = 403)
    ∧ (("staff" = "staff" ∨ "staff" = "admin") →
        (handoverToPolice "staff" (some "RPT-1") 2592000000 (some baseItem)).code ≠ 200 →
        (handoverToPolice "staff" (some "RPT-1") 2592000000 (some baseItem)).code = 400) :=
  handoverToPolice_spec "staff" (some "RPT-1") 2592000000 baseItem

end LostFound
